import Mathlib

/-!
# Verification of the Magic_Py collection updater (`RunMe.py`)

A shallow embedding of the price-resolution and row-update logic of
`RunMe.py`.  Python/pandas values are modelled as follows: spreadsheet
cells are a `Cell` inductive (NaN, string, number, boolean); Python
floats and pandas numerics are `Rat`; `datetime` instants are integer
seconds; fallible Python code (uncaught exceptions) returns `Option`,
with `none` for a crash or a fatal `exit()`.
-/

set_option autoImplicit false

namespace MagicPy

/-! ## String helpers (modelling the Python string operations used) -/

/-- Leading and trailing whitespace removed, as Python `str.strip()`. -/
def trimList (l : List Char) : List Char :=
  ((l.dropWhile Char.isWhitespace).reverse.dropWhile Char.isWhitespace).reverse

/-- Python `str.strip()`. -/
def pyStrip (s : String) : String := ⟨trimList s.data⟩

/-- Python `str.lower()` (ASCII case folding suffices for this program). -/
def pyLower (s : String) : String := ⟨s.data.map Char.toLower⟩

/-- Python `str.replace(a, b)` for single characters, as in
`name.replace(" ", "+")` in `fuzzy_search`. -/
def pyReplace (a b : Char) (s : String) : String :=
  ⟨s.data.map fun c => if c = a then b else c⟩

/-- Split a character list at every occurrence of `sep`. -/
def splitChar (sep : Char) : List Char → List (List Char)
  | [] => [[]]
  | c :: cs =>
    if c = sep then [] :: splitChar sep cs
    else
      match splitChar sep cs with
      | [] => [[c]]
      | g :: gs => (c :: g) :: gs

/-- Numeric value of a digit list (meaningful only when all are digits). -/
def digitsNat (l : List Char) : Nat :=
  l.foldl (fun a c => a * 10 + (c.toNat - 48)) 0

/-- Value of a nonempty all-digit character list; `none` otherwise. -/
def digitsVal (l : List Char) : Option Nat :=
  if l ≠ [] ∧ l.all Char.isDigit then some (digitsNat l) else none

/-- Decimal digits of `n` (most significant first); first argument is fuel. -/
def natCharsAux : Nat → Nat → List Char
  | 0, _ => []
  | _ + 1, 0 => []
  | fuel + 1, n + 1 => natCharsAux fuel ((n + 1) / 10) ++ [Nat.digitChar ((n + 1) % 10)]

/-- Decimal rendering of a natural number. -/
def natChars (n : Nat) : List Char :=
  if n = 0 then ['0'] else natCharsAux n n

/-- Zero-pad a digit list on the left to width `w` (as `strftime` does). -/
def padLeft (w : Nat) (l : List Char) : List Char :=
  List.replicate (w - l.length) '0' ++ l

/-! ## Python numeric string conversion

`float(s)` and `pd.to_numeric(s, errors="coerce")` on the decimal
numerals this program can meet: optional sign, integer part, optional
fractional part.  Special forms (scientific notation, `inf`, `nan`) do
not occur in this data and are not modelled.  `none` models a
`ValueError` for `float`, and pandas coercion to NaN for `to_numeric`. -/

/-- Python `float(s)` / `pd.to_numeric(s)` on plain decimal numerals. -/
def pyFloat (s : String) : Option Rat :=
  let t := trimList s.data
  let su : Rat × List Char :=
    match t with
    | [] => (1, [])
    | c :: cs => if c = '-' then (-1, cs) else if c = '+' then (1, cs) else (1, t)
  match splitChar '.' su.2 with
  | [ip] =>
    if ip ≠ [] ∧ ip.all Char.isDigit then some (su.1 * digitsNat ip) else none
  | [ip, fp] =>
    if (ip ≠ [] ∨ fp ≠ []) ∧ ip.all Char.isDigit ∧ fp.all Char.isDigit then
      some (su.1 * ((digitsNat ip : Rat) + (digitsNat fp : Rat) / (10 : Rat) ^ fp.length))
    else none
  | _ => none

/-- Truncation toward zero, as numpy `astype(int)` casts a float. -/
def ratTrunc (q : Rat) : Int := Int.tdiv q.num q.den

/-! ## Spreadsheet cells -/

/-- A spreadsheet cell as pandas holds it: missing (NaN), text, a
number, or a boolean. -/
inductive Cell where
  | nan
  | str (s : String)
  | num (q : Rat)
  | bool (b : Bool)
  deriving DecidableEq

/-- Python truthiness as used by `astype(bool)` on a cell: the crucial
quirk is that NaN (a float) is truthy, so a missing cell becomes `True`. -/
def pyBool : Cell → Bool
  | .nan => true
  | .str s => s != ""
  | .num q => q != 0
  | .bool b => b

/-- `pd.isna` on a cell. -/
def cellIsNa : Cell → Bool
  | .nan => true
  | _ => false

/-! ## Dates

`Last Updated` handling: `pd.to_datetime(_, errors="coerce")` followed by
`strftime("%m/%d/%Y")`.  Dates use the proleptic Gregorian calendar with
CPython ordinal day numbering (`date.toordinal`). -/

structure Date where
  month : Nat
  day : Nat
  year : Nat
  deriving DecidableEq

def isLeap (y : Nat) : Bool :=
  (y % 4 == 0 && y % 100 != 0) || y % 400 == 0

def monthLengths (y : Nat) : List Nat :=
  [31, if isLeap y then 29 else 28, 31, 30, 31, 30, 31, 31, 30, 31, 30, 31]

def daysInMonth (y m : Nat) : Nat := (monthLengths y).getD (m - 1) 0

def daysBeforeYear (y : Nat) : Nat :=
  365 * (y - 1) + (y - 1) / 4 - (y - 1) / 100 + (y - 1) / 400

def daysBeforeMonth (y m : Nat) : Nat := ((monthLengths y).take (m - 1)).sum

/-- CPython `date.toordinal`: day 1 is January 1 of year 1. -/
def dateOrdinal (d : Date) : Nat :=
  daysBeforeYear d.year + daysBeforeMonth d.year d.month + d.day

/-- Seconds at midnight of a date (the instant `pd.to_datetime` yields
for a bare date string). -/
def dateSecs (d : Date) : Int := (dateOrdinal d : Int) * 86400

/-- Validated date construction from parsed month/day/year fields. -/
def mkValidDate : Option Nat → Option Nat → Option Nat → Option Date
  | some m, some d, some y =>
    if 1 ≤ m ∧ m ≤ 12 ∧ 1 ≤ d ∧ d ≤ daysInMonth y m ∧ 1 ≤ y ∧ y ≤ 9999 then
      some ⟨m, d, y⟩
    else none
  | _, _, _ => none

/-- `pd.to_datetime(s, errors="coerce")` on the date strings this sheet
holds: month-first slash dates (`M/D/YYYY`, zero-padded or not) and ISO
dash dates (`YYYY-M-D`); anything else coerces to NaT (`none`). -/
def pdParseDate (s : String) : Option Date :=
  match splitChar '/' s.data with
  | [m, d, y] => mkValidDate (digitsVal m) (digitsVal d) (digitsVal y)
  | _ =>
    match splitChar '-' s.data with
    | [y, m, d] => mkValidDate (digitsVal m) (digitsVal d) (digitsVal y)
    | _ => none

/-- `strftime("%m/%d/%Y")`. -/
def fmtDate (d : Date) : String :=
  ⟨padLeft 2 (natChars d.month) ++ '/' :: padLeft 2 (natChars d.day) ++
    '/' :: padLeft 4 (natChars d.year)⟩

/-- The current instant `datetime.today()`: a date plus seconds since
midnight. -/
structure Now where
  date : Date
  timeOfDay : Nat
  deriving DecidableEq

/-- The instant in seconds. -/
def Now.secs (n : Now) : Int := dateSecs n.date + n.timeOfDay

/-! ## The Scryfall price resolver

`get_card_price` / `fuzzy_search` (RunMe.py lines 79-107).  The HTTP
layer is abstracted: an exact-lookup response is `none` for a non-200
status and `some card` for a 200 with JSON record `card`; a fuzzy-search
response is `none` for a non-200 status and `some l` for a 200 whose
`data` array is `l` (a missing `data` key behaves as the empty list,
taking the same branch).  Of a card record only the field the code
reads, `prices.usd`, is modelled. -/

/-- The `prices.usd` field of a provider card record: the key may be
absent, hold JSON null, or hold a string. -/
inductive UsdField where
  | absent
  | null
  | str (s : String)
  deriving DecidableEq

/-- A provider card record, restricted to the one field the code reads. -/
structure ProviderCard where
  usd : UsdField
  deriving DecidableEq

/-- `data.get("prices", {}).get("usd", "N/A")`: `none` models Python
`None` (JSON null); an absent key yields the default string `"N/A"`. -/
def getUsd : ProviderCard → Option String
  | ⟨.absent⟩ => some "N/A"
  | ⟨.null⟩ => none
  | ⟨.str s⟩ => some s

/-- `float(data.get("prices", {}).get("usd", "N/A") or 0)`: a falsy value
(`None` or the empty string) becomes `float(0)`; otherwise `float` parses
the string, raising `ValueError` (`none`) on a non-numeral such as the
`"N/A"` default. -/
def usdToFloat (c : ProviderCard) : Option Rat :=
  match getUsd c with
  | none => some 0
  | some s => if s = "" then some 0 else pyFloat s

/-- The value a resolver call leaves in the row: a float price or the
string `"Not Found"`. -/
inductive PriceResult where
  | price (q : Rat)
  | notFound
  deriving DecidableEq

/-- The URL built by `fuzzy_search`: the raw name with each space
replaced by a plus, and no set or collector-number constraint. -/
def fuzzyUrl (name : String) : String :=
  "https://api.scryfall.com/cards/search?q=" ++ pyReplace ' ' '+' name

/-- `fuzzy_search(name)` (lines 96-107), given the provider response for
`fuzzyUrl name`: on a 200 with a nonempty `data` array, the price of the
first result; otherwise the string `"Not Found"`.  `none` models an
uncaught `ValueError` from `float`. -/
def fuzzy_search (name : String) (resp : Option (List ProviderCard)) :
    Option PriceResult :=
  match resp with
  | some (best :: _) => (usdToFloat best).map PriceResult.price
  | _ => some PriceResult.notFound

/-- The query parameters `get_card_price` submits to the named-card
endpoint (lines 80-84): always `exact=name`; if a truthy set name is
given, `set` is the set name lowercased (`set_name.lower()` — no other
normalization); if a truthy collector number is given, it is passed
through unchanged. -/
def exactParams (name : String) (set_name set_number : Option String) :
    List (String × String) :=
  [("exact", name)] ++
    (match set_name with
     | some s => if s ≠ "" then [("set", pyLower s)] else []
     | none => []) ++
    (match set_number with
     | some s => if s ≠ "" then [("collector_number", s)] else []
     | none => [])

/-- `get_card_price` (lines 79-93), given the provider responses for the
exact lookup and for the fuzzy fallback: on a 200 exact response, the
extracted USD price; otherwise fall back to `fuzzy_search`. -/
def get_card_price (name : String) (set_name set_number : Option String)
    (exactResp : Option ProviderCard) (fuzzyResp : Option (List ProviderCard)) :
    Option PriceResult :=
  match exactResp with
  | some card => (usdToFloat card).map PriceResult.price
  | none => fuzzy_search name fuzzyResp

/-! ## Loading the sheet (`load_excel_sheet`, lines 33-61) -/

/-- The module constant `EXPECTED_COLUMNS`. -/
def EXPECTED_COLUMNS : List String :=
  ["Run", "Name", "Set", "Set #", "Quantity", "Price", "Total Price", "Last Updated"]

/-- A loaded worksheet: its column count and its data rows (each row a
list of `ncols` cells). -/
structure Sheet where
  ncols : Nat
  rows : List (List Cell)
  deriving DecidableEq

/-- `str(cell).strip().lower() == "total value"`: only a text cell can
render to that string — `str` of NaN is `"nan"`, of a float a numeral,
of a boolean `"True"`/`"False"`, none of which lowercases to
`"total value"`. -/
def isTotalValueCell : Cell → Bool
  | .str s => pyLower (pyStrip s) == "total value"
  | _ => false

/-- `load_excel_sheet` (lines 33-56) after a successful read of the named
sheet: drop the first data row when its first cell reads "TOTAL VALUE";
when there are more than the expected 8 columns, warn and keep only the
first 8; when the count is then unequal to 8 (too few), `exit()`
(`none`).  `none` also models the `IndexError` that `df.iloc[0, 0]`
raises on a sheet with no data rows. -/
def load_excel_sheet (sh : Sheet) : Option Sheet :=
  match sh.rows with
  | [] => none
  | r :: rest =>
    let rows := if isTotalValueCell (r.headD .nan) then rest else r :: rest
    let trimmed : Nat × List (List Cell) :=
      if EXPECTED_COLUMNS.length < sh.ncols then
        (EXPECTED_COLUMNS.length, rows.map (List.take EXPECTED_COLUMNS.length))
      else (sh.ncols, rows)
    if trimmed.1 ≠ EXPECTED_COLUMNS.length then none else some ⟨trimmed.1, trimmed.2⟩

/-! ## Rows and load-time normalization (lines 127-139) -/

/-- A data row as read from the sheet, before normalization.  Text
columns (`Name`, `Set`, `Set #`, `Last Updated`) hold a string or are
missing; `Quantity` is read with `dtype=str`, so it is a string or
missing; `Run`, `Price`, `Total Price` may hold any cell. -/
structure RawRow where
  run : Cell
  name : String
  set : Option String
  setNum : Option String
  quantity : Option String
  price : Cell
  totalPrice : Cell
  lastUpdated : Option String
  deriving DecidableEq

/-- A row after the load-time normalizations of lines 130-136. -/
structure Row where
  run : Bool
  name : String
  set : Option String
  setNum : Option String
  quantity : Int
  price : Cell
  totalPrice : Cell
  lastUpdated : Option String
  deriving DecidableEq

/-- Line 133: `pd.to_numeric(_, errors="coerce").fillna(1).astype(int)` —
a missing or unparseable quantity coerces to NaN and is filled with 1;
a parsed numeral is truncated toward zero. -/
def toQuantity : Option String → Int
  | none => 1
  | some s =>
    match pyFloat s with
    | none => 1
    | some q => ratTrunc q

/-- Line 136: re-serialize `Last Updated` through
`pd.to_datetime(_, errors="coerce").dt.strftime("%m/%d/%Y")`; an
unparseable or missing value becomes NaN (`none`). -/
def normalizeLastUpdated (s : Option String) : Option String :=
  (s.bind pdParseDate).map fmtDate

/-- Lines 130-136 applied to one row: `Run` through `astype(bool)`,
`Quantity` through the numeric coercion, `Last Updated` re-serialized;
every other field untouched. -/
def normalizeRow (r : RawRow) : Row :=
  { run := pyBool r.run
    name := r.name
    set := r.set
    setNum := r.setNum
    quantity := toQuantity r.quantity
    price := r.price
    totalPrice := r.totalPrice
    lastUpdated := normalizeLastUpdated r.lastUpdated }

/-! ## Row selection (`should_update_row`, lines 64-76) -/

/-- The closed set of run modes (line 115). -/
inductive RunMode where
  | all
  | checked
  | aged
  | empty
  deriving DecidableEq

/-- Line 116: an input outside the closed set is a fatal error. -/
def parseRunMode (s : String) : Option RunMode :=
  if s = "all" then some .all
  else if s = "checked" then some .checked
  else if s = "aged" then some .aged
  else if s = "empty" then some .empty
  else none

/-- `should_update_row(row, run_mode)` (lines 64-76).  `aged` re-parses
`Last Updated` and compares `(datetime.today() - last_updated).days > 30`,
where `timedelta.days` is the floor of the elapsed seconds over 86400;
`empty` is `pd.isna(price) or price == "Not Found"` (a float never
equals that string). -/
def should_update_row (row : Row) (mode : RunMode) (now : Now) : Bool :=
  let lu := row.lastUpdated.bind pdParseDate
  match mode with
  | .all => true
  | .checked => row.run
  | .aged =>
    match lu with
    | some d => Int.fdiv (now.secs - dateSecs d) 86400 > 30
    | none => false
  | .empty => cellIsNa row.price || row.price == Cell.str "Not Found"

/-! ## The update loop (lines 148-161) and the whole in-memory run -/

/-- The provider responses available to one row's resolution: the
response to the exact lookup and the response to the fuzzy fallback. -/
structure Resolution where
  exact : Option ProviderCard
  fuzzy : Option (List ProviderCard)

/-- Lines 150-151: the set / collector-number argument passed to the
resolver — the raw cell value when it is present and truthy after
`strip()`, else `None`. -/
def optArg : Option String → Option String
  | some s => if pyStrip s ≠ "" then some s else none
  | none => none

/-- One iteration of the update loop (lines 148-158): resolve the price,
then assign `Price`, `Total Price` (`new_price * quantity` when the
price is a float, else `"Not Found"`), and `Last Updated` (today,
`%m/%d/%Y`).  `none` propagates an uncaught resolver exception. -/
def updateRow (row : Row) (now : Now) (res : Resolution) : Option Row :=
  match get_card_price row.name (optArg row.set) (optArg row.setNum)
      res.exact res.fuzzy with
  | none => none
  | some r =>
    some { row with
      price :=
        match r with
        | .price q => Cell.num q
        | .notFound => Cell.str "Not Found"
      totalPrice :=
        match r with
        | .price q => Cell.num (q * (row.quantity : Rat))
        | .notFound => Cell.str "Not Found"
      lastUpdated := some (fmtDate now.date) }

/-- The update loop over the row list: position `i` is updated exactly
when its selection flag is true, using the provider responses
`oracle i`; other positions are left as they are.  A crash (`none`)
aborts the run before anything is written back. -/
def updateLoop (now : Now) (oracle : Nat → Resolution) :
    Nat → List Row → List Bool → Option (List Row)
  | _, [], _ => some []
  | i, r :: rs, [] => (updateLoop now oracle (i + 1) rs []).map (r :: ·)
  | i, r :: rs, b :: bs =>
    if b then
      match updateRow r now (oracle i) with
      | none => none
      | some r2 => (updateLoop now oracle (i + 1) rs bs).map (r2 :: ·)
    else (updateLoop now oracle (i + 1) rs bs).map (r :: ·)

/-- The in-memory run on the loaded data rows (lines 127-161): normalize
every row (lines 130-136), drop rows named `TOTAL VALUE` (line 139),
select with `should_update_row` (line 142), then run the update loop.
The resulting list is what the write-back loop (lines 175-177) copies
into the sheet, row by row in order. -/
def runPipeline (raws : List RawRow) (mode : RunMode) (now : Now)
    (oracle : Nat → Resolution) : Option (List Row) :=
  let rows := (raws.map normalizeRow).filter (fun r => r.name != "TOTAL VALUE")
  let flags := rows.map (fun r => should_update_row r mode now)
  updateLoop now oracle 0 rows flags

/-- A missing text field as a cell. -/
def optCell : Option String → Cell
  | some s => .str s
  | none => .nan

/-- The eight cells of a raw row as loaded from the sheet, in schema
order (`Run, Name, Set, Set #, Quantity, Price, Total Price,
Last Updated`). -/
def loadedCells (r : RawRow) : List Cell :=
  [r.run, .str r.name, optCell r.set, optCell r.setNum,
    (match r.quantity with
     | some s => Cell.str s
     | none => Cell.nan),
    r.price, r.totalPrice, optCell r.lastUpdated]

/-- The eight cells the write-back loop (lines 175-177) puts into the
sheet for one row, in schema order. -/
def writtenCells (r : Row) : List Cell :=
  [.bool r.run, .str r.name, optCell r.set, optCell r.setNum,
    .num (r.quantity : Rat), r.price, r.totalPrice, optCell r.lastUpdated]

/-! ## Helper lemmas -/

/-- `timedelta.days > 30` is exactly an elapsed time of at least 31 whole
days. -/
theorem fdiv_days_gt_30 (x : Int) : Int.fdiv x 86400 > 30 ↔ 31 * 86400 ≤ x := by
  rw [Int.fdiv_eq_ediv _ (by omega)]
  omega

/-! ## C1: set-code submission -/

/-- C1 (counterexample): the set code `"Modern Horizons 2"` is submitted
to the exact-lookup endpoint as `"modern horizons 2"` — lowercased but
with its internal spaces kept — not as `"modernhorizons2"` as the claim
states. -/
theorem C1_counterexample :
    ((exactParams "Ragavan" (some "Modern Horizons 2") none).lookup "set" =
      some "modern horizons 2") ∧
    some "modern horizons 2" ≠ some ("modernhorizons2" : String) := by
  constructor
  · rfl
  · decide

/-- C1 (amended): for every resolver call with a present (truthy) set
code, the value submitted under the `set` key is the input set code
lowercased only; internal spaces are not removed.  In particular
`"Modern Horizons 2"` is submitted as `"modern horizons 2"`. -/
theorem C1_set_code_lowercase_only (name s : String) (snum : Option String)
    (h : s ≠ "") :
    (exactParams name (some s) snum).lookup "set" = some (pyLower s) ∧
    pyLower "Modern Horizons 2" = "modern horizons 2" := by
  constructor
  · simp only [exactParams, if_pos h]
    have : ("exact" == "set") = false := by decide
    simp [List.lookup, this]
  · rfl

/-- C1 witness: the amended theorem applied at the spec's own scenario. -/
theorem C1_witness :
    (exactParams "Ragavan" (some "Modern Horizons 2") none).lookup "set" =
      some (pyLower "Modern Horizons 2") :=
  (C1_set_code_lowercase_only "Ragavan" "Modern Horizons 2" none (by decide)).1

/-! ## C2: column-count handling -/

/-- C2 (counterexample): a sheet with 9 columns — one more than the
expected schema — is NOT a fatal error: `load_excel_sheet` warns and
proceeds with the first 8 columns instead of terminating. -/
theorem C2_counterexample :
    load_excel_sheet
        ⟨9, [[Cell.str "Island", Cell.nan, Cell.nan, Cell.nan, Cell.nan,
              Cell.nan, Cell.nan, Cell.nan, Cell.nan]]⟩ =
      some ⟨8, [[Cell.str "Island", Cell.nan, Cell.nan, Cell.nan, Cell.nan,
              Cell.nan, Cell.nan, Cell.nan]]⟩ ∧
    load_excel_sheet
        ⟨9, [[Cell.str "Island", Cell.nan, Cell.nan, Cell.nan, Cell.nan,
              Cell.nan, Cell.nan, Cell.nan, Cell.nan]]⟩ ≠ none := by
  constructor
  · rfl
  · decide

/-- C2 (amended): a sheet with FEWER columns than the expected 8 is a
fatal configuration error (`none`, before any row processing or network
activity); a sheet with MORE columns is not fatal — it is auto-corrected
to its first 8 columns and loading continues. -/
theorem C2_column_count (sh : Sheet) (r : List Cell) (rs : List (List Cell))
    (hrows : sh.rows = r :: rs) :
    (sh.ncols < EXPECTED_COLUMNS.length → load_excel_sheet sh = none) ∧
    (EXPECTED_COLUMNS.length < sh.ncols →
      load_excel_sheet sh =
        some ⟨EXPECTED_COLUMNS.length,
          (if isTotalValueCell (r.headD Cell.nan) then rs else r :: rs).map
            (List.take EXPECTED_COLUMNS.length)⟩) := by
  have h8 : EXPECTED_COLUMNS.length = 8 := rfl
  constructor
  · intro hlt
    rw [h8] at hlt
    simp only [load_excel_sheet, hrows, h8, if_neg (show ¬8 < sh.ncols by omega)]
    split
    · rfl
    · rename_i hcond
      simp at hcond
      omega
  · intro hgt
    rw [h8] at hgt
    simp only [load_excel_sheet, hrows, h8, if_pos hgt]
    simp

/-- C2 witness: a 7-column sheet is fatal. -/
theorem C2_witness :
    load_excel_sheet
        ⟨7, [[Cell.str "Island", Cell.nan, Cell.nan, Cell.nan, Cell.nan,
              Cell.nan, Cell.nan]]⟩ = none :=
  (C2_column_count
      ⟨7, [[Cell.str "Island", Cell.nan, Cell.nan, Cell.nan, Cell.nan,
            Cell.nan, Cell.nan]]⟩
      [Cell.str "Island", Cell.nan, Cell.nan, Cell.nan, Cell.nan,
        Cell.nan, Cell.nan] [] rfl).1 (by decide)

/-! ## C3: extraction of the USD price field -/

/-- C3 (counterexample): on a successful exact response whose record has
no USD price field at all, the resolver does not return 0.0 — it crashes
(`float("N/A")` raises an uncaught `ValueError`). -/
theorem C3_counterexample :
    get_card_price "Island" none none (some ⟨UsdField.absent⟩) none = none ∧
    (none : Option PriceResult) ≠ some (PriceResult.price 0) := by
  constructor
  · rfl
  · decide

/-- C3 (amended): on a successful response (exact, or first fuzzy
result), the extracted price is `float(usd or 0)`: a present-but-null or
empty USD field yields the numeric price 0.0; an absent field (default
`"N/A"`) or any other non-numeric string raises an uncaught `ValueError`
— an error, not 0.0 and not NotFound. -/
theorem C3_usd_price_extraction (c : ProviderCard) (name : String)
    (sn snum : Option String) (rest : List ProviderCard)
    (fr : Option (List ProviderCard)) :
    (get_card_price name sn snum (some c) fr =
      (usdToFloat c).map PriceResult.price) ∧
    (fuzzy_search name (some (c :: rest)) =
      (usdToFloat c).map PriceResult.price) ∧
    (c.usd = UsdField.null ∨ c.usd = UsdField.str "" → usdToFloat c = some 0) ∧
    (c.usd = UsdField.absent → usdToFloat c = none) ∧
    (∀ s, c.usd = UsdField.str s → s ≠ "" → pyFloat s = none →
      usdToFloat c = none) := by
  obtain ⟨u⟩ := c
  refine ⟨rfl, rfl, ?_, ?_, ?_⟩
  · rintro (h | h) <;> cases h <;> rfl
  · rintro h; cases h; rfl
  · intro s hs hne hpf
    cases hs
    simp only [usdToFloat, getUsd]
    rw [if_neg hne]
    exact hpf

/-- C3 witness: a null USD field on a successful exact response yields
the price 0.0. -/
theorem C3_witness :
    usdToFloat ⟨UsdField.null⟩ = some 0 ∧
    get_card_price "Island" none none (some ⟨UsdField.null⟩) none =
      some (PriceResult.price 0) := by
  have h := C3_usd_price_extraction ⟨UsdField.null⟩ "Island" none none [] none
  refine ⟨h.2.2.1 (Or.inl rfl), ?_⟩
  rw [h.1, h.2.2.1 (Or.inl rfl)]
  rfl

/-! ## C5: quantity normalization -/

/-- C5 (counterexample): a raw quantity `"-3"` parses and is kept as the
negative integer `-3`, so the normalized quantity is NOT always
non-negative. -/
theorem C5_counterexample :
    toQuantity (some "-3") = -3 ∧ ¬(0 ≤ (-3 : Int)) := by
  constructor
  · with_unfolding_all rfl
  · decide

/-- C5 (amended): after load-time normalization the quantity is always an
integer, and a missing or unparseable raw value is coerced to 1; a
parseable value is truncated toward zero, so the result is non-negative
whenever the raw value parses to a non-negative number — but a parseable
negative raw value stays negative. -/
theorem C5_quantity_normalization (s : String) :
    toQuantity none = 1 ∧
    (pyFloat s = none → toQuantity (some s) = 1) ∧
    (∀ q : Rat, pyFloat s = some q → toQuantity (some s) = ratTrunc q) ∧
    (∀ q : Rat, pyFloat s = some q → 0 ≤ q → 0 ≤ toQuantity (some s)) := by
  refine ⟨rfl, ?_, ?_, ?_⟩
  · intro h; simp [toQuantity, h]
  · intro q h; simp [toQuantity, h]
  · intro q h hq
    simp only [toQuantity, h, ratTrunc]
    exact Int.tdiv_nonneg (Rat.num_nonneg.mpr hq) (Int.ofNat_nonneg _)

/-- C5 witness: unparseable coerces to 1; a non-negative numeral stays
non-negative. -/
theorem C5_witness :
    toQuantity (some "abc") = 1 ∧ 0 ≤ toQuantity (some "2.7") :=
  ⟨(C5_quantity_normalization "abc").2.1 rfl,
    (C5_quantity_normalization "2.7").2.2.2 (27 / 10)
      (by with_unfolding_all rfl) (by with_unfolding_all decide)⟩

/-! ## C6: the aged run mode -/

/-- C6 (counterexample): a row last updated 30 days and one hour ago has
elapsed time exceeding 30 days and a present `last_updated`, yet it is
NOT selected under `aged`: `timedelta.days` floors, so the code needs at
least 31 whole days. -/
theorem C6_counterexample :
    should_update_row
        { run := false, name := "Island", set := none, setNum := none,
          quantity := 1, price := Cell.nan, totalPrice := Cell.nan,
          lastUpdated := some "01/01/2024" }
        RunMode.aged ⟨⟨1, 31, 2024⟩, 3600⟩ = false ∧
    (some "01/01/2024" : Option String).bind pdParseDate = some ⟨1, 1, 2024⟩ ∧
    (⟨⟨1, 31, 2024⟩, 3600⟩ : Now).secs - dateSecs ⟨1, 1, 2024⟩ =
      30 * 86400 + 3600 ∧
    (30 * 86400 + 3600 : Int) > 30 * 86400 := by
  refine ⟨?_, rfl, rfl, by decide⟩
  decide

/-- C6 (amended): under `aged`, a row is eligible iff `last_updated` is
present (parses to a date) AND the elapsed time since it is at least 31
whole days — i.e. the floored day count of the elapsed time exceeds 30;
an elapsed time between 30 and 31 days does not qualify.  A row with no
`last_updated` is never eligible under `aged`. -/
theorem C6_aged_selection (row : Row) (now : Now) :
    (should_update_row row RunMode.aged now = true ↔
      ∃ d, row.lastUpdated.bind pdParseDate = some d ∧
        31 * 86400 ≤ now.secs - dateSecs d) ∧
    (row.lastUpdated = none → should_update_row row RunMode.aged now = false) := by
  constructor
  · simp only [should_update_row]
    cases h : row.lastUpdated.bind pdParseDate with
    | none => simp
    | some d => simp [fdiv_days_gt_30]
  · intro h
    simp [should_update_row, h]

/-- C6 witness: a 45-day-old row is eligible; a row with no
`last_updated` is not. -/
theorem C6_witness :
    should_update_row
        { run := false, name := "Island", set := none, setNum := none,
          quantity := 1, price := Cell.nan, totalPrice := Cell.nan,
          lastUpdated := some "01/01/2024" }
        RunMode.aged ⟨⟨2, 15, 2024⟩, 0⟩ = true ∧
    should_update_row
        { run := false, name := "Island", set := none, setNum := none,
          quantity := 1, price := Cell.nan, totalPrice := Cell.nan,
          lastUpdated := none }
        RunMode.aged ⟨⟨2, 15, 2024⟩, 0⟩ = false :=
  ⟨(C6_aged_selection _ _).1.mpr ⟨⟨1, 1, 2024⟩, rfl, by decide⟩,
    (C6_aged_selection _ _).2 rfl⟩

/-! ## C10: the checked run mode and missing Run cells -/

/-- C10 (confirmed): the load-time `astype(bool)` coercion of the `Run`
column maps a missing cell (NaN) to `True`, and under run mode `checked`
a row is eligible exactly when its coerced `Run` value is `True` — so a
row whose Run cell is missing IS eligible, and `checked` selects every
row except those whose Run cell coerces to `False`. -/
theorem C10_checked_missing_run (raw : RawRow) (now : Now) :
    should_update_row (normalizeRow raw) RunMode.checked now = pyBool raw.run ∧
    (raw.run = Cell.nan →
      should_update_row (normalizeRow raw) RunMode.checked now = true) := by
  constructor
  · rfl
  · intro h
    simp [should_update_row, normalizeRow, h, pyBool]

/-- C10 witness: a concrete row with a missing Run cell is eligible under
`checked`. -/
theorem C10_witness :
    should_update_row
        (normalizeRow
          { run := Cell.nan, name := "Island", set := none, setNum := none,
            quantity := none, price := Cell.nan, totalPrice := Cell.nan,
            lastUpdated := none })
        RunMode.checked ⟨⟨1, 1, 2024⟩, 0⟩ = true :=
  (C10_checked_missing_run
      { run := Cell.nan, name := "Island", set := none, setNum := none,
        quantity := none, price := Cell.nan, totalPrice := Cell.nan,
        lastUpdated := none } ⟨⟨1, 1, 2024⟩, 0⟩).2 rfl

/-! ## C4: fuzzy fallback and the NotFound sentinel -/

/-- C4 (confirmed): when the exact lookup returns a non-success status
the resolver falls back to the fuzzy free-text search of the raw name —
spaces encoded as plus signs, no set or collector-number constraint (the
result does not depend on them) — taking the first result's price; and
the resolver returns the `NotFound` sentinel, a value distinct from
every numeric price, exactly when the exact lookup failed and the fuzzy
search also failed or returned no results. -/
theorem C4_fuzzy_fallback_notfound_iff (name : String)
    (sn snum sn2 snum2 : Option String) (er : Option ProviderCard)
    (fr : Option (List ProviderCard)) :
    (get_card_price name sn snum er fr = some PriceResult.notFound ↔
      er = none ∧ (fr = none ∨ fr = some [])) ∧
    (get_card_price name sn snum none fr = fuzzy_search name fr) ∧
    (get_card_price name sn snum none fr = get_card_price name sn2 snum2 none fr) ∧
    (∀ c rest, fuzzy_search name (some (c :: rest)) =
      (usdToFloat c).map PriceResult.price) ∧
    (fuzzyUrl name = "https://api.scryfall.com/cards/search?q=" ++
      pyReplace ' ' '+' name) ∧
    (∀ q : Rat, (PriceResult.notFound : PriceResult) ≠ PriceResult.price q) := by
  refine ⟨?_, rfl, rfl, fun c rest => rfl, rfl, fun q h => by cases h⟩
  cases er with
  | some c =>
    simp only [get_card_price]
    constructor
    · intro h
      rcases Option.map_eq_some'.mp h with ⟨a, _, ha⟩
      cases ha
    · rintro ⟨h, _⟩
      cases h
  | none =>
    cases fr with
    | none => simp [get_card_price, fuzzy_search]
    | some l =>
      cases l with
      | nil => simp [get_card_price, fuzzy_search]
      | cons c rest =>
        simp only [get_card_price, fuzzy_search]
        constructor
        · intro h
          rcases Option.map_eq_some'.mp h with ⟨a, _, ha⟩
          cases ha
        · rintro ⟨_, h | h⟩ <;> simp at h

/-- C4 witness: the spec's missing-card scenario — exact lookup fails,
fuzzy search returns no results, and the resolver yields `NotFound`. -/
theorem C4_witness :
    get_card_price "Nonexistent Card XYZ" none none none (some []) =
      some PriceResult.notFound :=
  (C4_fuzzy_fallback_notfound_iff "Nonexistent Card XYZ" none none none none
      none (some [])).1.mpr ⟨rfl, Or.inr rfl⟩

/-! ## The update loop: frame and per-row specification -/

/-- Fields other than `Price`, `Total Price` and `Last Updated` are never
assigned by one update-loop iteration. -/
theorem updateRow_frame (row : Row) (now : Now) (res : Resolution) (out : Row)
    (h : updateRow row now res = some out) :
    out.run = row.run ∧ out.name = row.name ∧ out.set = row.set ∧
      out.setNum = row.setNum ∧ out.quantity = row.quantity := by
  unfold updateRow at h
  split at h
  · cases h
  · cases h
    exact ⟨rfl, rfl, rfl, rfl, rfl⟩

/-- The update loop neither adds nor removes rows. -/
theorem updateLoop_length (now : Now) (oracle : Nat → Resolution) :
    ∀ (rows : List Row) (k : Nat) (flags : List Bool) (out : List Row),
      updateLoop now oracle k rows flags = some out →
      out.length = rows.length := by
  intro rows
  induction rows with
  | nil =>
    intro k flags out h
    simp only [updateLoop] at h
    cases h
    rfl
  | cons r rs ih =>
    intro k flags out h
    cases flags with
    | nil =>
      simp only [updateLoop] at h
      rcases Option.map_eq_some'.mp h with ⟨o2, h2, rfl⟩
      simp [ih _ _ _ h2]
    | cons b bs =>
      simp only [updateLoop] at h
      split at h
      · split at h
        · cases h
        · rcases Option.map_eq_some'.mp h with ⟨o2, h2, rfl⟩
          simp [ih _ _ _ h2]
      · rcases Option.map_eq_some'.mp h with ⟨o2, h2, rfl⟩
        simp [ih _ _ _ h2]

/-- Positionwise behavior of the update loop: an unselected position is
returned unchanged; a selected position holds exactly the result of
`updateRow` on it. -/
theorem updateLoop_get (now : Now) (oracle : Nat → Resolution) :
    ∀ (rows : List Row) (k : Nat) (flags : List Bool) (out : List Row),
      updateLoop now oracle k rows flags = some out →
      ∀ i : Nat,
        (flags.get? i ≠ some true → out.get? i = rows.get? i) ∧
        (flags.get? i = some true → ∀ r, rows.get? i = some r →
          out.get? i = updateRow r now (oracle (k + i))) := by
  intro rows
  induction rows with
  | nil =>
    intro k flags out h i
    simp only [updateLoop] at h
    cases h
    constructor
    · intro _
      rfl
    · intro _ r hr
      simp at hr
  | cons r rs ih =>
    intro k flags out h i
    cases flags with
    | nil =>
      simp only [updateLoop] at h
      rcases Option.map_eq_some'.mp h with ⟨o2, h2, rfl⟩
      cases i with
      | zero => exact ⟨fun _ => rfl, fun hft => by simp at hft⟩
      | succ j =>
        have hj := ih (k + 1) [] o2 h2 j
        refine ⟨fun _ => ?_, fun hft => by simp at hft⟩
        simpa using hj.1 (by simp)
    | cons b bs =>
      simp only [updateLoop] at h
      split at h
      · rename_i hb
        split at h
        · cases h
        · rename_i r2 hup
          rcases Option.map_eq_some'.mp h with ⟨o2, h2, rfl⟩
          cases i with
          | zero =>
            refine ⟨fun hne => absurd (by simp [hb]) hne, fun _ rr hrr => ?_⟩
            simp only [List.get?_cons_zero] at hrr
            cases hrr
            simpa [Nat.add_zero] using hup.symm
          | succ j =>
            have hj := ih (k + 1) bs o2 h2 j
            refine ⟨fun hne => ?_, fun hft rr hrr => ?_⟩
            · simpa using hj.1 (by simpa using hne)
            · have h4 := hj.2 (by simpa using hft) rr (by simpa using hrr)
              have hkj : k + 1 + j = k + (j + 1) := by omega
              simpa [hkj] using h4
      · rename_i hb
        rcases Option.map_eq_some'.mp h with ⟨o2, h2, rfl⟩
        cases i with
        | zero =>
          refine ⟨fun _ => rfl, fun hft => ?_⟩
          have hbt : b = true := by simpa using hft
          exact absurd hbt hb
        | succ j =>
          have hj := ih (k + 1) bs o2 h2 j
          refine ⟨fun hne => ?_, fun hft rr hrr => ?_⟩
          · simpa using hj.1 (by simpa using hne)
          · have h4 := hj.2 (by simpa using hft) rr (by simpa using hrr)
            have hkj : k + 1 + j = k + (j + 1) := by omega
            simpa [hkj] using h4

/-- Filtering the `TOTAL VALUE` rows commutes with per-row
normalization, since normalization keeps the name. -/
theorem filter_normalize_comm (raws : List RawRow) :
    (raws.map normalizeRow).filter (fun r => r.name != "TOTAL VALUE") =
      (raws.filter (fun r => r.name != "TOTAL VALUE")).map normalizeRow := by
  induction raws with
  | nil => rfl
  | cons a l ih =>
    simp only [List.map_cons, List.filter_cons]
    have hname : (normalizeRow a).name = a.name := rfl
    cases hp : (a.name != "TOTAL VALUE") with
    | true => simp [hname, hp, ih]
    | false => simp [hname, hp, ih]

/-! ## C7: the price/total invariant after the update loop -/

/-- C7 (counterexample): the update loop only establishes the
price/total invariant on the rows it updates; an unselected row keeps
whatever it was loaded with, so after a run over a sheet whose unselected
row holds price 5 and total 7, total differs from price times quantity. -/
theorem C7_counterexample :
    runPipeline
        [{ run := Cell.bool false, name := "Island", set := none, setNum := none,
           quantity := some "1", price := Cell.num 5, totalPrice := Cell.num 7,
           lastUpdated := none }]
        RunMode.checked ⟨⟨1, 1, 2024⟩, 0⟩ (fun _ => ⟨none, none⟩) =
      some [{ run := false, name := "Island", set := none, setNum := none,
              quantity := 1, price := Cell.num 5, totalPrice := Cell.num 7,
              lastUpdated := none }] ∧
    Cell.num 7 ≠ Cell.num (5 * ((1 : Int) : Rat)) := by
  constructor
  · with_unfolding_all rfl
  · with_unfolding_all decide

/-- C7 (amended): every row the update loop actually updates satisfies
the invariant — its new price is numeric iff its new total is numeric,
in which case total = price × quantity exactly; and a `"Not Found"`
price comes with a `"Not Found"` total.  Rows not selected keep their
loaded values, so the invariant holds for the whole sheet only if the
loaded data already satisfied it. -/
theorem C7_updated_row_invariant (row : Row) (now : Now) (res : Resolution)
    (out : Row) (h : updateRow row now res = some out) :
    ((∃ q, out.price = Cell.num q) ↔ ∃ q, out.totalPrice = Cell.num q) ∧
    (∀ q, out.price = Cell.num q →
      out.totalPrice = Cell.num (q * (out.quantity : Rat))) ∧
    (out.price = Cell.str "Not Found" →
      out.totalPrice = Cell.str "Not Found") := by
  unfold updateRow at h
  split at h
  · cases h
  · rename_i r heq
    cases h
    cases r with
    | price q =>
      refine ⟨⟨fun _ => ⟨q * (row.quantity : Rat), rfl⟩, fun _ => ⟨q, rfl⟩⟩,
        ?_, ?_⟩
      · intro q2 hq2
        simp only [] at hq2
        cases hq2
        rfl
      · intro hq
        simp at hq
    | notFound =>
      refine ⟨⟨?_, ?_⟩, ?_, fun _ => rfl⟩
      · rintro ⟨q, hq⟩
        simp at hq
      · rintro ⟨q, hq⟩
        simp at hq
      · intro q hq
        simp at hq

/-- C7 witness: the amended theorem at the spec's Island scenario —
price 0.10, quantity 4, total 0.40. -/
theorem C7_witness :
    updateRow
        { run := true, name := "Island", set := some "M21", setNum := none,
          quantity := 4, price := Cell.str "Not Found",
          totalPrice := Cell.str "Not Found", lastUpdated := none }
        ⟨⟨1, 1, 2024⟩, 0⟩ ⟨some ⟨UsdField.str "0.10"⟩, none⟩ =
      some { run := true, name := "Island", set := some "M21", setNum := none,
             quantity := 4, price := Cell.num (1 / 10),
             totalPrice := Cell.num (2 / 5),
             lastUpdated := some "01/01/2024" } ∧
    Cell.num (2 / 5) =
      Cell.num ((1 / 10 : Rat) * (((4 : Int) : Rat))) := by
  have h : updateRow
      { run := true, name := "Island", set := some "M21", setNum := none,
        quantity := 4, price := Cell.str "Not Found",
        totalPrice := Cell.str "Not Found", lastUpdated := none }
      ⟨⟨1, 1, 2024⟩, 0⟩ ⟨some ⟨UsdField.str "0.10"⟩, none⟩ =
      some { run := true, name := "Island", set := some "M21", setNum := none,
             quantity := 4, price := Cell.num (1 / 10),
             totalPrice := Cell.num (2 / 5),
             lastUpdated := some "01/01/2024" } := by
    with_unfolding_all rfl
  refine ⟨h, ?_⟩
  exact (C7_updated_row_invariant _ _ _ _ h).2.1 (1 / 10) (by with_unfolding_all rfl)

/-! ## C8: unselected rows and the update loop -/

/-- C8 (counterexample): the claim fails at the whole-run level — an
unselected row's `last_updated` is NOT byte-identical before and after a
run, because load-time normalization (line 136) re-serializes every
parsable date: the unselected row loaded with `"1/5/2024"` is written
back as `"01/05/2024"`. -/
theorem C8_counterexample :
    runPipeline
        [{ run := Cell.bool false, name := "Island", set := none, setNum := none,
           quantity := some "1", price := Cell.num 1, totalPrice := Cell.num 1,
           lastUpdated := some "1/5/2024" }]
        RunMode.checked ⟨⟨2, 1, 2024⟩, 0⟩ (fun _ => ⟨none, none⟩) =
      some [{ run := false, name := "Island", set := none, setNum := none,
              quantity := 1, price := Cell.num 1, totalPrice := Cell.num 1,
              lastUpdated := some "01/05/2024" }] ∧
    (some "01/05/2024" : Option String) ≠ some "1/5/2024" := by
  constructor
  · with_unfolding_all rfl
  · decide

/-- C8 (amended): the update loop itself never touches an unselected
row: every position whose selection flag is false is returned exactly as
it entered the loop, so its price, total price, and last-updated fields
are identical across the loop.  (Representation changes to those fields
can still happen earlier, at load-time normalization.) -/
theorem C8_loop_frame (rows : List Row) (flags : List Bool) (now : Now)
    (oracle : Nat → Resolution) (out : List Row) (i : Nat)
    (h : updateLoop now oracle 0 rows flags = some out)
    (hf : flags.get? i = some false) :
    out.get? i = rows.get? i :=
  (updateLoop_get now oracle rows 0 flags out h i).1 (by rw [hf]; simp)

/-- C8 witness: a one-row loop with the row unselected returns it
unchanged. -/
theorem C8_witness :
    updateLoop ⟨⟨1, 1, 2024⟩, 0⟩ (fun _ => ⟨none, none⟩) 0
        [{ run := false, name := "Island", set := none, setNum := none,
           quantity := 1, price := Cell.num 1, totalPrice := Cell.num 1,
           lastUpdated := none }] [false] =
      some [{ run := false, name := "Island", set := none, setNum := none,
              quantity := 1, price := Cell.num 1, totalPrice := Cell.num 1,
              lastUpdated := none }] ∧
    ([{ run := false, name := "Island", set := none, setNum := none,
        quantity := 1, price := Cell.num 1, totalPrice := Cell.num 1,
        lastUpdated := none }] : List Row).get? 0 =
      [{ run := false, name := "Island", set := none, setNum := none,
         quantity := 1, price := Cell.num 1, totalPrice := Cell.num 1,
         lastUpdated := none }].get? 0 :=
  ⟨rfl,
    C8_loop_frame
      [{ run := false, name := "Island", set := none, setNum := none,
         quantity := 1, price := Cell.num 1, totalPrice := Cell.num 1,
         lastUpdated := none }] [false] ⟨⟨1, 1, 2024⟩, 0⟩
      (fun _ => ⟨none, none⟩)
      [{ run := false, name := "Island", set := none, setNum := none,
         quantity := 1, price := Cell.num 1, totalPrice := Cell.num 1,
         lastUpdated := none }] 0 rfl rfl⟩

/-! ## C9: the row set across a run -/

/-- C9 (counterexample): a run mutates more than price, total and
timestamp: the Quantity cell of an untouched (unselected) row loaded as
the text `"x"` is written back as the integer 1 — load-time coercion
rewrites the `Run` and `Quantity` columns of every row. -/
theorem C9_counterexample :
    runPipeline
        [{ run := Cell.bool false, name := "Island", set := none, setNum := none,
           quantity := some "x", price := Cell.num 1, totalPrice := Cell.num 1,
           lastUpdated := none }]
        RunMode.checked ⟨⟨1, 1, 2024⟩, 0⟩ (fun _ => ⟨none, none⟩) =
      some [{ run := false, name := "Island", set := none, setNum := none,
              quantity := 1, price := Cell.num 1, totalPrice := Cell.num 1,
              lastUpdated := none }] ∧
    (writtenCells
        { run := false, name := "Island", set := none, setNum := none,
          quantity := 1, price := Cell.num 1, totalPrice := Cell.num 1,
          lastUpdated := none }).get? 4 = some (Cell.num 1) ∧
    (loadedCells
        { run := Cell.bool false, name := "Island", set := none, setNum := none,
          quantity := some "x", price := Cell.num 1, totalPrice := Cell.num 1,
          lastUpdated := none }).get? 4 = some (Cell.str "x") ∧
    Cell.num 1 ≠ Cell.str "x" := by
  refine ⟨?_, by with_unfolding_all rfl, rfl, by decide⟩
  with_unfolding_all rfl

/-- C9 (amended): a run never creates or deletes a row: the written-back
list has exactly one row per loaded row (those named `TOTAL VALUE`
excepted), in order, with name, set and collector number unchanged; but
beyond price, total and timestamp, the run also rewrites `Run` (boolean
coercion) and `Quantity` (integer coercion) for every row. -/
theorem C9_row_set_preserved (raws : List RawRow) (mode : RunMode) (now : Now)
    (oracle : Nat → Resolution) (out : List Row)
    (h : runPipeline raws mode now oracle = some out) :
    out.length = (raws.filter (fun r => r.name != "TOTAL VALUE")).length ∧
    ∀ i raw, (raws.filter (fun r => r.name != "TOTAL VALUE")).get? i = some raw →
      ∃ r2, out.get? i = some r2 ∧ r2.name = raw.name ∧ r2.set = raw.set ∧
        r2.setNum = raw.setNum ∧ r2.run = pyBool raw.run ∧
        r2.quantity = toQuantity raw.quantity := by
  simp only [runPipeline] at h
  rw [filter_normalize_comm] at h
  have hlen := updateLoop_length now oracle _ 0 _ _ h
  constructor
  · rw [hlen, List.length_map]
  · intro i raw hraw
    have hrows :
        ((raws.filter (fun r => r.name != "TOTAL VALUE")).map normalizeRow).get? i
          = some (normalizeRow raw) := by
      rw [List.get?_map, hraw]
      rfl
    have hilen :
        i < ((raws.filter (fun r => r.name != "TOTAL VALUE")).map
          normalizeRow).length := by
      rw [List.length_map]
      exact (List.get?_eq_some.mp hraw).1
    obtain ⟨r2, hr2⟩ : ∃ r2, out.get? i = some r2 := by
      cases ho : out.get? i with
      | some r2 => exact ⟨r2, rfl⟩
      | none =>
        have hn := List.get?_eq_none.mp ho
        rw [hlen] at hn
        omega
    have hspec := updateLoop_get now oracle _ 0 _ out h i
    by_cases hft :
        (((raws.filter (fun r => r.name != "TOTAL VALUE")).map normalizeRow).map
          (fun r => should_update_row r mode now)).get? i = some true
    · have h5 := hspec.2 hft (normalizeRow raw) hrows
      rw [hr2] at h5
      have h6 := updateRow_frame (normalizeRow raw) now (oracle (0 + i)) r2 h5.symm
      exact ⟨r2, hr2, h6.2.1, h6.2.2.1, h6.2.2.2.1, h6.1, h6.2.2.2.2⟩
    · have h5 := hspec.1 hft
      rw [hr2, hrows] at h5
      cases h5
      exact ⟨normalizeRow raw, hr2, rfl, rfl, rfl, rfl, rfl⟩

/-- C9 witness: on a one-row sheet the written-back list has the same
length as the loaded (non-`TOTAL VALUE`) row list. -/
theorem C9_witness :
    ([{ run := false, name := "Island", set := none, setNum := none,
        quantity := 1, price := Cell.num 1, totalPrice := Cell.num 1,
        lastUpdated := none }] : List Row).length =
      (([{ run := Cell.bool false, name := "Island", set := none, setNum := none,
           quantity := some "1", price := Cell.num 1, totalPrice := Cell.num 1,
           lastUpdated := none }] : List RawRow).filter
        (fun r => r.name != "TOTAL VALUE")).length :=
  (C9_row_set_preserved
      [{ run := Cell.bool false, name := "Island", set := none, setNum := none,
         quantity := some "1", price := Cell.num 1, totalPrice := Cell.num 1,
         lastUpdated := none }]
      RunMode.checked ⟨⟨1, 1, 2024⟩, 0⟩ (fun _ => ⟨none, none⟩)
      [{ run := false, name := "Island", set := none, setNum := none,
         quantity := 1, price := Cell.num 1, totalPrice := Cell.num 1,
         lastUpdated := none }]
      (by with_unfolding_all rfl)).1

end MagicPy
